import Mathlib

/-!
Shallow embedding of the building heat-loss and heating-simulation core
(`heatModule/buildingHeatLoss.py` and `heatModule/heatingModule.py`).

Python floats are modelled as real numbers; Python exceptions
(`ZeroDivisionError`, `KeyError`, `ValueError`, `AssertionError`,
`NameError`) are modelled with an explicit error type and `Except`.
-/

/-- Runtime errors of the embedded code: `validation` models the
`AssertionError` raised by `simulate_heating`'s length asserts,
`zeroDivision` the `ZeroDivisionError` from `window_area / num_windows`,
`keyError` a failed material-table lookup, `valueError` the invalid
roof-type error, and `nameError` the unbound `roof_length` local that an
invalid roof type would leave in `estimate_thermal_bridges`. -/
inductive Err where
  | validation : Err
  | zeroDivision : Err
  | keyError : Err
  | valueError : Err
  | nameError : Err
deriving DecidableEq

/-- State of a `BuildingHeatLoss` object: constructor arguments plus every
derived attribute set in `__init__`, in source order. -/
structure Building where
  length : ℝ
  width : ℝ
  roof_height : ℝ
  roof_type : String
  roof_pitch : ℝ
  wall_material : String
  floor_material : String
  roof_material : String
  wall_area : ℝ
  wall_u_value : ℝ
  floor_area : ℝ
  floor_u_value : ℝ
  roof_area : ℝ
  roof_u_value : ℝ
  total_height : ℝ
  total_volume : ℝ
  glazing_ratio : ℝ
  num_windows : ℕ
  window_area : ℝ
  window_u_value : ℝ
  num_doors : ℕ
  door_height : ℝ
  door_width : ℝ
  door_area : ℝ
  total_door_area : ℝ
  door_u_value : ℝ
  ventilation_rate : ℝ
  air_leakage_rate : ℝ
  thermal_bridge_psi_values : List ℝ
  thermal_bridge_lengths : List ℝ

/-- `math.radians`: degrees to radians. -/
noncomputable def radians (x : ℝ) : ℝ := x * Real.pi / 180

/-- `BuildingHeatLoss.__init__`: derives all areas, heights and volumes from
the constructor arguments; raises (`ValueError`) on an invalid roof type. -/
noncomputable def Building.init
    (length width wall_height glazing_ratio : ℝ)
    (num_windows num_doors : ℕ)
    (roof_type : String) (roof_pitch : ℝ)
    (wall_u_value floor_u_value roof_u_value window_u_value door_u_value : ℝ)
    (ventilation_rate air_leakage_rate : ℝ)
    (wall_material floor_material roof_material : String) :
    Except Err Building :=
  let wall_area := 2 * (length + width) * wall_height
  let floor_area := length * width
  let roof_area_result : Except Err ℝ :=
    if roof_type = "flat" then
      .ok (length * width)
    else if roof_type = "gable" then
      let pitch_rad := radians roof_pitch
      let roof_width := width / Real.cos pitch_rad
      .ok (2 * length * roof_width)
    else if roof_type = "shed" then
      let pitch_rad := radians roof_pitch
      let roof_width := width / Real.cos pitch_rad
      .ok (length * roof_width)
    else if roof_type = "hip" then
      let pitch_rad := radians roof_pitch
      let roof_width := width / Real.cos pitch_rad
      let roof_length := length / Real.cos pitch_rad
      .ok (roof_width * roof_length)
    else
      .error .valueError
  match roof_area_result with
  | .error e => .error e
  | .ok roof_area =>
    let total_height :=
      if roof_type = "flat" then
        wall_height
      else if roof_type = "gable" ∨ roof_type = "hip" then
        wall_height + (width / 2) * Real.tan (radians roof_pitch)
      else if roof_type = "shed" then
        wall_height + width * Real.tan (radians roof_pitch)
      else
        wall_height  -- unreachable: invalid roof types were rejected above
    let total_volume := length * width * total_height
    let window_area := wall_area * glazing_ratio
    let door_height : ℝ := 2.033
    let door_width : ℝ := 0.925
    let door_area := door_height * door_width
    let total_door_area := (num_doors : ℝ) * door_area
    .ok {
      length := length
      width := width
      roof_height := wall_height
      roof_type := roof_type
      roof_pitch := roof_pitch
      wall_material := wall_material
      floor_material := floor_material
      roof_material := roof_material
      wall_area := wall_area
      wall_u_value := wall_u_value
      floor_area := floor_area
      floor_u_value := floor_u_value
      roof_area := roof_area
      roof_u_value := roof_u_value
      total_height := total_height
      total_volume := total_volume
      glazing_ratio := glazing_ratio
      num_windows := num_windows
      window_area := window_area
      window_u_value := window_u_value
      num_doors := num_doors
      door_height := door_height
      door_width := door_width
      door_area := door_area
      total_door_area := total_door_area
      door_u_value := door_u_value
      ventilation_rate := ventilation_rate
      air_leakage_rate := air_leakage_rate
      thermal_bridge_psi_values := []
      thermal_bridge_lengths := []
    }

/-- Result record of `calculate_heat_transmission`. -/
structure QTransmission where
  wall_transmission : ℝ
  roof_transmission : ℝ
  door_transmission : ℝ
  floor_transmission : ℝ
  Q_transmission : ℝ
  Q_transmission_kWh_h : ℝ

/-- `calculate_heat_transmission`: per-surface transmission losses in Watts
(wall, roof, door, floor — no window term) and the total, also in kWh/h. -/
noncomputable def calculate_heat_transmission (b : Building) (delta_T : ℝ) :
    QTransmission :=
  let wall_transmission := b.wall_u_value * b.wall_area * delta_T
  let roof_transmission := b.roof_u_value * b.roof_area * delta_T
  let door_transmission := b.door_u_value * b.total_door_area * delta_T
  let floor_transmission := b.floor_u_value * b.floor_area * delta_T
  let Q_transmission :=
    wall_transmission + roof_transmission + door_transmission +
      floor_transmission
  { wall_transmission := wall_transmission
    roof_transmission := roof_transmission
    door_transmission := door_transmission
    floor_transmission := floor_transmission
    Q_transmission := Q_transmission
    Q_transmission_kWh_h := Q_transmission / 1000 }

/-- `calculate_ventilation_rate`. -/
noncomputable def calculate_ventilation_rate (b : Building) : ℝ :=
  b.ventilation_rate * b.floor_area

/-- `calculate_infiltration_rate`. -/
noncomputable def calculate_infiltration_rate (b : Building) : ℝ :=
  b.air_leakage_rate * b.total_volume

/-- Result record of `calculate_ventilation_heat_loss`. -/
structure QVentilation where
  Q_ventilation : ℝ
  Q_infiltration : ℝ
  Q_ventilation_heat_loss : ℝ
  Q_ventilation_heat_loss_kWh_h : ℝ

/-- `calculate_ventilation_heat_loss`: ventilation and infiltration losses in
Watts and their sum, also in kWh/h. -/
noncomputable def calculate_ventilation_heat_loss (b : Building)
    (delta_T : ℝ) : QVentilation :=
  let C_air : ℝ := 1005
  let rho_air : ℝ := 1.2
  let Q_ventilation := calculate_ventilation_rate b * C_air * rho_air * delta_T
  let Q_infiltration :=
    calculate_infiltration_rate b * C_air * rho_air * delta_T
  let Q_ventilation_heat_loss := Q_ventilation + Q_infiltration
  { Q_ventilation := Q_ventilation
    Q_infiltration := Q_infiltration
    Q_ventilation_heat_loss := Q_ventilation_heat_loss
    Q_ventilation_heat_loss_kWh_h := Q_ventilation_heat_loss / 3600000 }

/-- The five thermal bridges, in the dictionary insertion order of
`estimate_thermal_bridges` (window, door, floor, corner, roof); each entry is
a (psi-value, length) pair. -/
structure ThermalBridges where
  window : ℝ × ℝ
  door : ℝ × ℝ
  floor : ℝ × ℝ
  corner : ℝ × ℝ
  roof : ℝ × ℝ

/-- `estimate_thermal_bridges`: derives bridge lengths from geometry, stores
them (with the psi-values) into the object's cache lists, and returns the
bridge table.  Raises `ZeroDivisionError` when `num_windows = 0` and would
hit an unbound local (`NameError`) on an invalid roof type. -/
noncomputable def estimate_thermal_bridges (b : Building) :
    Except Err (Building × ThermalBridges) :=
  if b.num_windows = 0 then .error .zeroDivision else
  let window_side_length := Real.sqrt (b.window_area / (b.num_windows : ℝ))
  let window : ℝ × ℝ := (0.03, 4 * window_side_length * (b.num_windows : ℝ))
  let door : ℝ × ℝ :=
    (0.03, 2 * (b.door_height + b.door_width) * (b.num_doors : ℝ))
  let floor_bridge : ℝ × ℝ := (0.07, 2 * (b.length + b.width))
  let corner : ℝ × ℝ := (0.04, 4 * b.total_height)
  let roof_length_result : Except Err ℝ :=
    if b.roof_type = "flat" then .ok (2 * (b.length + b.width))
    else if b.roof_type = "gable" then
      .ok (2 * (b.length + b.width) + b.length)
    else if b.roof_type = "hip" then
      .ok (2 * (b.length + b.width) +
        4 * Real.sqrt ((b.length / 2) ^ 2 + (b.width / 2) ^ 2))
    else if b.roof_type = "shed" then .ok (2 * (b.length + b.width))
    else .error .nameError
  match roof_length_result with
  | .error e => .error e
  | .ok roof_length =>
    let roof : ℝ × ℝ := (0.06, roof_length)
    let b' := { b with
      thermal_bridge_lengths :=
        [window.2, door.2, floor_bridge.2, corner.2, roof.2]
      thermal_bridge_psi_values :=
        [window.1, door.1, floor_bridge.1, corner.1, roof.1] }
    .ok (b', ⟨window, door, floor_bridge, corner, roof⟩)

/-- Result record of `calculate_thermal_bridge_loss`: the total in Watts and
kWh/h together with the per-bridge losses in Watts and kWh/h, in dictionary
order (window, door, floor, corner, roof). -/
structure QBridgeLoss where
  total_W : ℝ
  total_kWh_h : ℝ
  breakdown_W_window : ℝ
  breakdown_W_door : ℝ
  breakdown_W_floor : ℝ
  breakdown_W_corner : ℝ
  breakdown_W_roof : ℝ
  breakdown_kWh_h_window : ℝ
  breakdown_kWh_h_door : ℝ
  breakdown_kWh_h_floor : ℝ
  breakdown_kWh_h_corner : ℝ
  breakdown_kWh_h_roof : ℝ

/-- `calculate_thermal_bridge_loss`: psi·length·ΔT summed over the five
bridges, in Watts and kWh/h, with the per-bridge breakdown. -/
noncomputable def calculate_thermal_bridge_loss (b : Building)
    (delta_T : ℝ) : Except Err (Building × QBridgeLoss) :=
  match estimate_thermal_bridges b with
  | .error e => .error e
  | .ok (b', tb) =>
    let Q_thermal_bridge :=
      tb.window.1 * tb.window.2 * delta_T + tb.door.1 * tb.door.2 * delta_T +
        tb.floor.1 * tb.floor.2 * delta_T +
        tb.corner.1 * tb.corner.2 * delta_T + tb.roof.1 * tb.roof.2 * delta_T
    .ok (b', {
      total_W := Q_thermal_bridge
      total_kWh_h := Q_thermal_bridge / 1000
      breakdown_W_window := tb.window.1 * tb.window.2 * delta_T
      breakdown_W_door := tb.door.1 * tb.door.2 * delta_T
      breakdown_W_floor := tb.floor.1 * tb.floor.2 * delta_T
      breakdown_W_corner := tb.corner.1 * tb.corner.2 * delta_T
      breakdown_W_roof := tb.roof.1 * tb.roof.2 * delta_T
      breakdown_kWh_h_window := tb.window.1 * tb.window.2 * delta_T / 1000
      breakdown_kWh_h_door := tb.door.1 * tb.door.2 * delta_T / 1000
      breakdown_kWh_h_floor := tb.floor.1 * tb.floor.2 * delta_T / 1000
      breakdown_kWh_h_corner := tb.corner.1 * tb.corner.2 * delta_T / 1000
      breakdown_kWh_h_roof := tb.roof.1 * tb.roof.2 * delta_T / 1000 })

/-- `calculate_total_heat_loss`: transmission + ventilation + thermal-bridge
totals, all in kWh/h. -/
noncomputable def calculate_total_heat_loss (b : Building) (delta_T : ℝ) :
    Except Err (Building × ℝ) :=
  let Q_transmission := (calculate_heat_transmission b delta_T).Q_transmission_kWh_h
  let Q_ventilation_heat_loss :=
    (calculate_ventilation_heat_loss b delta_T).Q_ventilation_heat_loss_kWh_h
  match calculate_thermal_bridge_loss b delta_T with
  | .error e => .error e
  | .ok (b', bridge) =>
    .ok (b', Q_transmission + Q_ventilation_heat_loss + bridge.total_kWh_h)

/-- Wall branch of the `thermal_mass_values` lookup table (kJ/m²K). -/
noncomputable def thermal_mass_values_wall (s : String) : Option ℝ :=
  if s = "timber_frame" then some 110
  else if s = "brick" then some 190
  else if s = "cavity_brick" then some 150
  else if s = "concrete_block" then some 170
  else if s = "stone" then some 250
  else if s = "light_steel" then some 120
  else if s = "log" then some 160
  else none

/-- Floor branch of the `thermal_mass_values` lookup table (kJ/m²K). -/
noncomputable def thermal_mass_values_floor (s : String) : Option ℝ :=
  if s = "timber" then some 70
  else if s = "concrete_slab" then some 180
  else if s = "concrete_screed" then some 110
  else if s = "raised_access" then some 60
  else none

/-- Roof branch of the `thermal_mass_values` lookup table (kJ/m²K). -/
noncomputable def thermal_mass_values_roof (s : String) : Option ℝ :=
  if s = "timber_joist" then some 100
  else if s = "concrete_deck" then some 140
  else if s = "metal_deck" then some 80
  else if s = "green_roof" then some 170
  else none

/-- `calculate_thermal_mass`: area-weighted material capacitances (kJ→J via
·1000) plus the air term, converted to kWh/K; an unknown material tag raises
`KeyError`. -/
noncomputable def calculate_thermal_mass (b : Building) : Except Err ℝ :=
  let rho_air : ℝ := 1.2
  let C_air : ℝ := 1005
  match thermal_mass_values_wall b.wall_material with
  | none => .error .keyError
  | some wall_val =>
    match thermal_mass_values_floor b.floor_material with
    | none => .error .keyError
    | some floor_val =>
      match thermal_mass_values_roof b.roof_material with
      | none => .error .keyError
      | some roof_val =>
        let wall_thermal_mass := b.wall_area * wall_val * 1000
        let floor_thermal_mass := b.floor_area * floor_val * 1000
        let roof_thermal_mass := b.roof_area * roof_val * 1000
        let air_thermal_mass := b.total_volume * rho_air * C_air
        let thermal_mass :=
          air_thermal_mass + wall_thermal_mass + floor_thermal_mass +
            roof_thermal_mass
        .ok (thermal_mass / 3600000)

/-- State of a `HeatingSystem` object: configuration plus the PID
controller's mutable state (`integral`, `previous_error`). -/
structure HeatingSystem where
  building : Building
  COP : ℝ
  min_Q_heating : ℝ
  max_Q_heating : ℝ
  dt : ℝ
  integral : ℝ
  previous_error : ℝ
  Kp : ℝ
  Ki : ℝ
  Kd : ℝ

/-- `HeatingSystem.__init__`: stores the configuration and initialises the
PID state (`dt = 1`, `integral = 0`, `previous_error = 0`, gains
`Kp = 10.0`, `Ki = 0.05`, `Kd = 5.0`). -/
noncomputable def HeatingSystem.init (building : Building)
    (COP min_Q_heating max_Q_heating : ℝ) : HeatingSystem :=
  { building := building
    COP := COP
    min_Q_heating := min_Q_heating
    max_Q_heating := max_Q_heating
    dt := 1
    integral := 0
    previous_error := 0
    Kp := 10.0
    Ki := 0.05
    Kd := 5.0 }

/-- `heat_pump_control`: one PID step.  Returns the clamped heating command
together with the updated object state; the (dead) non-PID branch is the
bang-bang controller of the source. -/
noncomputable def heat_pump_control (hs : HeatingSystem)
    (temperature_setpoint temperature_inside : ℝ) : ℝ × HeatingSystem :=
  let controller := "PID"
  if controller = "PID" then
    let error := temperature_setpoint - temperature_inside
    let integral := hs.integral + error * hs.dt
    let derivative := (error - hs.previous_error) / hs.dt
    let output := hs.Kp * error + hs.Ki * integral + hs.Kd * derivative
    let Q_heating := max (min output hs.max_Q_heating) hs.min_Q_heating
    (Q_heating, { hs with integral := integral, previous_error := error })
  else
    if temperature_inside < temperature_setpoint then
      (hs.max_Q_heating, hs)
    else
      (0, hs)

/-- `heat_pump`: one simulation step — current heat loss, PID command,
energy balance against the thermal mass, and electrical energy. -/
noncomputable def heat_pump (hs : HeatingSystem)
    (temperature_setpoint temperature_inside temperature_outside : ℝ)
    (dt : ℝ) : Except Err (ℝ × ℝ × ℝ × ℝ × HeatingSystem) :=
  let delta_T := temperature_inside - temperature_outside
  match calculate_total_heat_loss hs.building delta_T with
  | .error e => .error e
  | .ok (b', Q_loss) =>
    let hs_b := { hs with building := b' }
    let step := heat_pump_control hs_b temperature_setpoint temperature_inside
    let Q_heating := step.1
    let hs' := step.2
    match calculate_thermal_mass hs'.building with
    | .error e => .error e
    | .ok thermal_mass =>
      let Q_net := Q_heating - Q_loss
      let dT := Q_net * hs.dt / thermal_mass
      let new_temperature := temperature_inside + dT
      let E_electrical := Q_heating / hs.COP
      .ok (E_electrical, new_temperature, Q_heating, Q_loss, hs')

/-- Hour loop of `simulate_heating`, expressed as structural recursion over
the paired hourly series (the source indexes both 24-element lists by the
loop counter, which is the same traversal). -/
noncomputable def simulate_aux (hs : HeatingSystem)
    (temperatures_outside temperature_setpoints : List ℝ)
    (temperature_inside : ℝ) :
    Except Err (List ℝ × List ℝ × List ℝ × List ℝ × HeatingSystem) :=
  match temperatures_outside, temperature_setpoints with
  | t_out :: rest_out, setp :: rest_set =>
    (match heat_pump hs setp temperature_inside t_out hs.dt with
     | .error e => .error e
     | .ok (E_electrical, new_temperature, Q_heating, Q_loss, hs') =>
       match simulate_aux hs' rest_out rest_set new_temperature with
       | .error e => .error e
       | .ok (temps, energies, heats, losses, hs'') =>
         .ok (new_temperature :: temps, E_electrical :: energies,
              Q_heating :: heats, Q_loss :: losses, hs''))
  | _, _ => .ok ([], [], [], [], hs)

/-- `simulate_heating`: asserts that both hourly series have exactly 24
entries (`AssertionError`, modelled as `Err.validation`), then runs the
24-hour loop from the initial indoor temperature. -/
noncomputable def simulate_heating (hs : HeatingSystem)
    (temperatures_outside temperature_setpoints : List ℝ)
    (initial_temperature_inside : ℝ) :
    Except Err (List ℝ × List ℝ × List ℝ × List ℝ × HeatingSystem) :=
  if temperatures_outside.length = 24 then
    if temperature_setpoints.length = 24 then
      match simulate_aux hs temperatures_outside temperature_setpoints
          initial_temperature_inside with
      | .error e => .error e
      | .ok (temps, energies, heats, losses, hs') =>
        .ok (initial_temperature_inside :: temps, energies, heats, losses,
             hs')
    else .error .validation
  else .error .validation

/-- The four roof types accepted by `BuildingHeatLoss.__init__`. -/
def validRoof (s : String) : Prop :=
  s = "flat" ∨ s = "gable" ∨ s = "hip" ∨ s = "shed"

instance (s : String) : Decidable (validRoof s) := by
  unfold validRoof
  infer_instance

/-- Success precondition of the heat-loss pipeline: at least one window
(otherwise `estimate_thermal_bridges` divides by zero), a valid roof type,
and material tags present in all three thermal-mass tables. -/
def goodB (b : Building) : Prop :=
  b.num_windows ≠ 0 ∧ validRoof b.roof_type ∧
    (thermal_mass_values_wall b.wall_material).isSome ∧
    (thermal_mass_values_floor b.floor_material).isSome ∧
    (thermal_mass_values_roof b.roof_material).isSome

noncomputable instance (b : Building) : Decidable (goodB b) := by
  unfold goodB
  infer_instance

/-- Window thermal-bridge length: perimeter of `num_windows` square
windows. -/
noncomputable def windowLen (b : Building) : ℝ :=
  4 * Real.sqrt (b.window_area / (b.num_windows : ℝ)) * (b.num_windows : ℝ)

/-- Door thermal-bridge length. -/
noncomputable def doorLen (b : Building) : ℝ :=
  2 * (b.door_height + b.door_width) * (b.num_doors : ℝ)

/-- Floor-perimeter thermal-bridge length. -/
noncomputable def floorLen (b : Building) : ℝ :=
  2 * (b.length + b.width)

/-- Corner thermal-bridge length. -/
noncomputable def cornerLen (b : Building) : ℝ :=
  4 * b.total_height

/-- Roof-junction thermal-bridge length by roof type. -/
noncomputable def roofLenVal (b : Building) : ℝ :=
  if b.roof_type = "flat" then 2 * (b.length + b.width)
  else if b.roof_type = "gable" then 2 * (b.length + b.width) + b.length
  else if b.roof_type = "hip" then
    2 * (b.length + b.width) +
      4 * Real.sqrt ((b.length / 2) ^ 2 + (b.width / 2) ^ 2)
  else 2 * (b.length + b.width)

/-- The building state after `estimate_thermal_bridges` has stored its
results into the two cache lists; no other field is touched. -/
noncomputable def bridgeUpd (b : Building) : Building :=
  { b with
    thermal_bridge_lengths :=
      [windowLen b, doorLen b, floorLen b, cornerLen b, roofLenVal b]
    thermal_bridge_psi_values := [0.03, 0.03, 0.07, 0.04, 0.06] }

/-- Total thermal-bridge loss per kelvin (W/K). -/
noncomputable def bridgeRate (b : Building) : ℝ :=
  0.03 * windowLen b + 0.03 * doorLen b + 0.07 * floorLen b +
    0.04 * cornerLen b + 0.06 * roofLenVal b

/-- Total transmission loss per kelvin (W/K): wall, roof, door, floor. -/
noncomputable def transRate (b : Building) : ℝ :=
  b.wall_u_value * b.wall_area + b.roof_u_value * b.roof_area +
    b.door_u_value * b.total_door_area + b.floor_u_value * b.floor_area

/-- Ventilation plus infiltration loss per kelvin (W/K). -/
noncomputable def ventRate (b : Building) : ℝ :=
  (calculate_ventilation_rate b + calculate_infiltration_rate b) * 1005 * 1.2

/-- Total heat loss per kelvin in kWh/h per K: the linear coefficient of
`calculate_total_heat_loss` in ΔT. -/
noncomputable def lossRate (b : Building) : ℝ :=
  transRate b / 1000 + ventRate b / 3600000 + bridgeRate b / 1000

/-- Value returned by `calculate_thermal_mass` when all three material tags
resolve (kWh/K). -/
noncomputable def Mval (b : Building) : ℝ :=
  (b.total_volume * 1.2 * 1005 +
      b.wall_area * ((thermal_mass_values_wall b.wall_material).getD 0) * 1000 +
      b.floor_area * ((thermal_mass_values_floor b.floor_material).getD 0) * 1000 +
      b.roof_area * ((thermal_mass_values_roof b.roof_material).getD 0) * 1000) /
    3600000

/-- One PID step through `heat_pump_control`, exposed on the controller's
raw state pair `(integral, previous_error)`: returns the clamped output and
the new state pair. -/
noncomputable def pidApply (hs : HeatingSystem) (c : ℝ × ℝ)
    (temperature_setpoint temperature_inside : ℝ) : ℝ × ℝ × ℝ :=
  let hs_c := { hs with integral := c.1, previous_error := c.2 }
  let r := heat_pump_control hs_c temperature_setpoint temperature_inside
  (r.1, (r.2).integral, (r.2).previous_error)

/-- Agreement on every `Building` field except the two thermal-bridge cache
lists (`thermal_bridge_psi_values`, `thermal_bridge_lengths`). -/
def sameExceptBridgeCache (b b' : Building) : Prop :=
  b'.length = b.length ∧ b'.width = b.width ∧
    b'.roof_height = b.roof_height ∧ b'.roof_type = b.roof_type ∧
    b'.roof_pitch = b.roof_pitch ∧ b'.wall_material = b.wall_material ∧
    b'.floor_material = b.floor_material ∧
    b'.roof_material = b.roof_material ∧ b'.wall_area = b.wall_area ∧
    b'.wall_u_value = b.wall_u_value ∧ b'.floor_area = b.floor_area ∧
    b'.floor_u_value = b.floor_u_value ∧ b'.roof_area = b.roof_area ∧
    b'.roof_u_value = b.roof_u_value ∧ b'.total_height = b.total_height ∧
    b'.total_volume = b.total_volume ∧
    b'.glazing_ratio = b.glazing_ratio ∧
    b'.num_windows = b.num_windows ∧ b'.window_area = b.window_area ∧
    b'.window_u_value = b.window_u_value ∧ b'.num_doors = b.num_doors ∧
    b'.door_height = b.door_height ∧ b'.door_width = b.door_width ∧
    b'.door_area = b.door_area ∧ b'.total_door_area = b.total_door_area ∧
    b'.door_u_value = b.door_u_value ∧
    b'.ventilation_rate = b.ventilation_rate ∧
    b'.air_leakage_rate = b.air_leakage_rate

/-- A concrete valid building used to instantiate the theorems: a 3×2×2 m
flat-roofed box with one window (window area 4 m², so the window side
length is exactly 2 m) and the default materials and U-values; every field
holds the value `BuildingHeatLoss.__init__` derives for these inputs. -/
noncomputable def demoBuilding : Building :=
  { length := 3
    width := 2
    roof_height := 2
    roof_type := "flat"
    roof_pitch := 0
    wall_material := "timber_frame"
    floor_material := "timber"
    roof_material := "timber_joist"
    wall_area := 20
    wall_u_value := 0.18
    floor_area := 6
    floor_u_value := 0.10
    roof_area := 6
    roof_u_value := 0.13
    total_height := 2
    total_volume := 12
    glazing_ratio := 0.2
    num_windows := 1
    window_area := 4
    window_u_value := 0.8
    num_doors := 1
    door_height := 2.033
    door_width := 0.925
    door_area := 2.033 * 0.925
    total_door_area := 1 * (2.033 * 0.925)
    door_u_value := 0.8
    ventilation_rate := 0.7
    air_leakage_rate := 0.1
    thermal_bridge_psi_values := []
    thermal_bridge_lengths := [] }

/-- `demoBuilding` with an unrecognized wall material tag. -/
noncomputable def demoBadBuilding : Building :=
  { demoBuilding with wall_material := "unobtainium" }

/-- `demoBuilding` with zero windows. -/
noncomputable def demoZeroWindowBuilding : Building :=
  { demoBuilding with num_windows := 0 }

/-- A concrete heating system over `demoBuilding`: COP 3.5, heating power
clamped to [0, 5]. -/
noncomputable def demoHS : HeatingSystem :=
  HeatingSystem.init demoBuilding 3.5 0 5

/-- A concrete heating system over `demoZeroWindowBuilding`. -/
noncomputable def demoHS0 : HeatingSystem :=
  HeatingSystem.init demoZeroWindowBuilding 3.5 0 5

lemma estimate_thermal_bridges_ok (b : Building) (hw : b.num_windows ≠ 0)
    (hroof : validRoof b.roof_type) :
    estimate_thermal_bridges b =
      .ok (bridgeUpd b,
        ⟨(0.03, windowLen b), (0.03, doorLen b), (0.07, floorLen b),
         (0.04, cornerLen b), (0.06, roofLenVal b)⟩) := by
  unfold estimate_thermal_bridges bridgeUpd windowLen doorLen floorLen
    cornerLen roofLenVal
  rw [if_neg hw]
  rcases hroof with h | h | h | h <;> simp [h]

lemma calculate_thermal_bridge_loss_ok (b : Building) (delta_T : ℝ)
    (hw : b.num_windows ≠ 0) (hroof : validRoof b.roof_type) :
    ∃ r : QBridgeLoss,
      calculate_thermal_bridge_loss b delta_T = .ok (bridgeUpd b, r) ∧
      r.total_W = bridgeRate b * delta_T ∧
      r.total_kWh_h = bridgeRate b * delta_T / 1000 := by
  unfold calculate_thermal_bridge_loss
  rw [estimate_thermal_bridges_ok b hw hroof]
  refine ⟨_, rfl, ?_, ?_⟩ <;> (unfold bridgeRate; ring)

lemma calculate_total_heat_loss_ok (b : Building) (delta_T : ℝ)
    (hw : b.num_windows ≠ 0) (hroof : validRoof b.roof_type) :
    calculate_total_heat_loss b delta_T =
      .ok (bridgeUpd b, lossRate b * delta_T) := by
  unfold calculate_total_heat_loss
  obtain ⟨r, hr, hW, hk⟩ := calculate_thermal_bridge_loss_ok b delta_T hw hroof
  rw [hr]
  dsimp only
  rw [hk]
  congr 2
  unfold calculate_heat_transmission calculate_ventilation_heat_loss
    lossRate transRate ventRate calculate_ventilation_rate
    calculate_infiltration_rate
  dsimp only
  ring

lemma calculate_thermal_mass_ok (b : Building)
    (hwm : (thermal_mass_values_wall b.wall_material).isSome)
    (hfm : (thermal_mass_values_floor b.floor_material).isSome)
    (hrm : (thermal_mass_values_roof b.roof_material).isSome) :
    calculate_thermal_mass b = .ok (Mval b) := by
  obtain ⟨cw, hcw⟩ := Option.isSome_iff_exists.mp hwm
  obtain ⟨cf, hcf⟩ := Option.isSome_iff_exists.mp hfm
  obtain ⟨cr, hcr⟩ := Option.isSome_iff_exists.mp hrm
  unfold calculate_thermal_mass Mval
  rw [hcw, hcf, hcr]
  simp [hcw, hcf, hcr]

lemma lossRate_bridgeUpd (b : Building) :
    lossRate (bridgeUpd b) = lossRate b := rfl

lemma Mval_bridgeUpd (b : Building) : Mval (bridgeUpd b) = Mval b := rfl

lemma goodB_bridgeUpd (b : Building) : goodB (bridgeUpd b) ↔ goodB b :=
  Iff.rfl

lemma pidApply_bounds (hs : HeatingSystem) (c : ℝ × ℝ) (sp m : ℝ)
    (h : hs.min_Q_heating ≤ hs.max_Q_heating) :
    hs.min_Q_heating ≤ (pidApply hs c sp m).1 ∧
      (pidApply hs c sp m).1 ≤ hs.max_Q_heating := by
  unfold pidApply heat_pump_control
  dsimp only
  rw [if_pos rfl]
  exact ⟨le_max_right _ _, max_le (min_le_right _ _) h⟩

lemma heat_pump_ok (hs : HeatingSystem) (sp ti tout d : ℝ)
    (hg : goodB hs.building) :
    heat_pump hs sp ti tout d =
      .ok ((pidApply hs (hs.integral, hs.previous_error) sp ti).1 / hs.COP,
           ti + ((pidApply hs (hs.integral, hs.previous_error) sp ti).1 -
               lossRate hs.building * (ti - tout)) * hs.dt /
             Mval hs.building,
           (pidApply hs (hs.integral, hs.previous_error) sp ti).1,
           lossRate hs.building * (ti - tout),
           { hs with
             building := bridgeUpd hs.building
             integral := (pidApply hs (hs.integral, hs.previous_error) sp ti).2.1
             previous_error :=
               (pidApply hs (hs.integral, hs.previous_error) sp ti).2.2 }) := by
  obtain ⟨hw, hroof, hwm, hfm, hrm⟩ := hg
  unfold heat_pump
  dsimp only
  rw [calculate_total_heat_loss_ok hs.building (ti - tout) hw hroof]
  dsimp only
  rw [show calculate_thermal_mass
        ((heat_pump_control { hs with building := bridgeUpd hs.building }
          sp ti).2).building = .ok (Mval hs.building) from
      calculate_thermal_mass_ok _ hwm hfm hrm]
  rfl

lemma simulate_aux_spec :
    ∀ (outs sets : List ℝ) (hs : HeatingSystem) (T0 : ℝ),
      outs.length = sets.length → goodB hs.building →
      ∃ temps energies heats losses hs',
        simulate_aux hs outs sets T0 =
          .ok (temps, energies, heats, losses, hs') ∧
        temps.length = outs.length ∧ energies.length = outs.length ∧
        heats.length = outs.length ∧ losses.length = outs.length ∧
        ∃ ctrl : ℕ → ℝ × ℝ,
          ctrl 0 = (hs.integral, hs.previous_error) ∧
          ∀ h, h < outs.length →
            losses.getD h 0 =
              lossRate hs.building *
                ((T0 :: temps).getD h 0 - outs.getD h 0) ∧
            heats.getD h 0 =
              (pidApply hs (ctrl h) (sets.getD h 0)
                ((T0 :: temps).getD h 0)).1 ∧
            ctrl (h + 1) =
              (pidApply hs (ctrl h) (sets.getD h 0)
                ((T0 :: temps).getD h 0)).2 ∧
            energies.getD h 0 = heats.getD h 0 / hs.COP ∧
            (T0 :: temps).getD (h + 1) 0 =
              (T0 :: temps).getD h 0 +
                (heats.getD h 0 - losses.getD h 0) * hs.dt /
                  Mval hs.building := by
  intro outs
  induction outs with
  | nil =>
    intro sets hs T0 hlen hg
    refine ⟨[], [], [], [], hs, ?_, rfl, rfl, rfl, rfl,
      fun _ => (hs.integral, hs.previous_error), rfl, ?_⟩
    · cases sets <;> rfl
    · intro h hh
      exact absurd hh (by simp)
  | cons o outs' IH =>
    intro sets hs T0 hlen hg
    cases sets with
    | nil => simp at hlen
    | cons s sets' =>
      have hlen' : outs'.length = sets'.length := by
        simpa using hlen
      have hstep := heat_pump_ok hs s T0 o hs.dt hg
      have hg1 : goodB (bridgeUpd hs.building) := hg
      obtain ⟨temps', Es', Qhs', Qls', hs'', hEq, hlt, hle, hlh, hll,
        ctrl', hc0, hprops⟩ :=
        IH sets'
          { hs with
            building := bridgeUpd hs.building
            integral := (pidApply hs (hs.integral, hs.previous_error) s T0).2.1
            previous_error :=
              (pidApply hs (hs.integral, hs.previous_error) s T0).2.2 }
          (T0 + ((pidApply hs (hs.integral, hs.previous_error) s T0).1 -
              lossRate hs.building * (T0 - o)) * hs.dt / Mval hs.building)
          hlen' hg1
      refine ⟨(T0 + ((pidApply hs (hs.integral, hs.previous_error) s T0).1 -
            lossRate hs.building * (T0 - o)) * hs.dt / Mval hs.building) ::
          temps',
        ((pidApply hs (hs.integral, hs.previous_error) s T0).1 / hs.COP) ::
          Es',
        (pidApply hs (hs.integral, hs.previous_error) s T0).1 :: Qhs',
        (lossRate hs.building * (T0 - o)) :: Qls',
        hs'', ?_, ?_, ?_, ?_, ?_,
        fun n => Nat.casesOn n (hs.integral, hs.previous_error)
          (fun k => ctrl' k), rfl, ?_⟩
      · unfold simulate_aux
        rw [hstep]
        dsimp only
        rw [hEq]
      · simpa using hlt
      · simpa using hle
      · simpa using hlh
      · simpa using hll
      · intro h hh
        cases h with
        | zero =>
          refine ⟨by simp, by simp, ?_, by simp, by simp⟩
          simp only [List.getD_cons_zero]
          exact (hc0.trans rfl).symm ▸ rfl
        | succ k =>
          have hk : k < outs'.length := by
            simpa using hh
          have hp := hprops k hk
          simp only [List.getD_cons_succ]
          exact hp

/-- C2: one step of `heat_pump_control` computes error = setpoint − measured,
updates the integral to integral + error·dt unconditionally (no anti-windup:
the same equation holds whether or not the returned output is saturated),
computes the derivative (error − previousError)/dt, returns the raw PID
output clamped to [min_Q_heating, max_Q_heating], and stores the error as
the new previous_error. -/
theorem heat_pump_control_pid_step (hs : HeatingSystem)
    (setpoint measured : ℝ) :
    (heat_pump_control hs setpoint measured).2.integral =
      hs.integral + (setpoint - measured) * hs.dt ∧
    (heat_pump_control hs setpoint measured).2.previous_error =
      setpoint - measured ∧
    (heat_pump_control hs setpoint measured).1 =
      max (min (hs.Kp * (setpoint - measured) +
            hs.Ki * (hs.integral + (setpoint - measured) * hs.dt) +
            hs.Kd * ((setpoint - measured - hs.previous_error) / hs.dt))
          hs.max_Q_heating)
        hs.min_Q_heating :=
  ⟨rfl, rfl, rfl⟩

/-- C3: the total transmission loss is exactly the sum of the four terms
wall, roof, door and floor (U·area·ΔT each); the kWh/h figure is that sum
divided by 1000; and whenever the window term U·area·ΔT is nonzero, the
total differs from the sum with the window term added — the window term is
not included. -/
theorem heat_transmission_four_terms (b : Building) (delta_T : ℝ) :
    (calculate_heat_transmission b delta_T).Q_transmission =
      b.wall_u_value * b.wall_area * delta_T +
        b.roof_u_value * b.roof_area * delta_T +
        b.door_u_value * b.total_door_area * delta_T +
        b.floor_u_value * b.floor_area * delta_T ∧
    (calculate_heat_transmission b delta_T).Q_transmission_kWh_h =
      (calculate_heat_transmission b delta_T).Q_transmission / 1000 ∧
    (b.window_u_value * b.window_area * delta_T ≠ 0 →
      (calculate_heat_transmission b delta_T).Q_transmission ≠
        b.wall_u_value * b.wall_area * delta_T +
          b.roof_u_value * b.roof_area * delta_T +
          b.door_u_value * b.total_door_area * delta_T +
          b.floor_u_value * b.floor_area * delta_T +
          b.window_u_value * b.window_area * delta_T) := by
  refine ⟨rfl, rfl, ?_⟩
  intro h heq
  have h0 : (calculate_heat_transmission b delta_T).Q_transmission =
      b.wall_u_value * b.wall_area * delta_T +
        b.roof_u_value * b.roof_area * delta_T +
        b.door_u_value * b.total_door_area * delta_T +
        b.floor_u_value * b.floor_area * delta_T := rfl
  rw [h0] at heq
  exact h (by linarith)

/-- Witness for C3 at the demo building and ΔT = 1: the window term is
nonzero there, so the conclusion applies. -/
theorem heat_transmission_four_terms_witness :
    demoBuilding.window_u_value * demoBuilding.window_area * (1 : ℝ) ≠ 0 ∧
    ((calculate_heat_transmission demoBuilding 1).Q_transmission =
      demoBuilding.wall_u_value * demoBuilding.wall_area * 1 +
        demoBuilding.roof_u_value * demoBuilding.roof_area * 1 +
        demoBuilding.door_u_value * demoBuilding.total_door_area * 1 +
        demoBuilding.floor_u_value * demoBuilding.floor_area * 1 ∧
    (calculate_heat_transmission demoBuilding 1).Q_transmission_kWh_h =
      (calculate_heat_transmission demoBuilding 1).Q_transmission / 1000 ∧
    (demoBuilding.window_u_value * demoBuilding.window_area * 1 ≠ 0 →
      (calculate_heat_transmission demoBuilding 1).Q_transmission ≠
        demoBuilding.wall_u_value * demoBuilding.wall_area * 1 +
          demoBuilding.roof_u_value * demoBuilding.roof_area * 1 +
          demoBuilding.door_u_value * demoBuilding.total_door_area * 1 +
          demoBuilding.floor_u_value * demoBuilding.floor_area * 1 +
          demoBuilding.window_u_value * demoBuilding.window_area * 1)) :=
  ⟨by norm_num [demoBuilding], heat_transmission_four_terms demoBuilding 1⟩

/-- C5: whenever either hourly series does not have exactly 24 entries,
`simulate_heating` fails with the length assertion (`Err.validation`)
before running any simulation step, so no partial results are produced and
no state is threaded out. -/
theorem simulate_heating_length_guard (hs : HeatingSystem)
    (outs sets : List ℝ) (T0 : ℝ)
    (h : outs.length ≠ 24 ∨ sets.length ≠ 24) :
    simulate_heating hs outs sets T0 = .error .validation := by
  unfold simulate_heating
  rcases h with h | h
  · rw [if_neg h]
  · by_cases h2 : outs.length = 24
    · rw [if_pos h2, if_neg h]
    · rw [if_neg h2]

/-- Witness for C5: 23 outdoor temperatures with 24 setpoints. -/
theorem simulate_heating_length_guard_witness :
    ((List.replicate 23 (0 : ℝ)).length ≠ 24 ∨
      (List.replicate 24 (0 : ℝ)).length ≠ 24) ∧
    simulate_heating demoHS (List.replicate 23 (0 : ℝ))
      (List.replicate 24 (0 : ℝ)) 18 = .error .validation :=
  ⟨Or.inl (by simp),
   simulate_heating_length_guard demoHS _ _ 18 (Or.inl (by simp))⟩

/-- C6: `calculate_thermal_mass` fails with `KeyError` whenever any of the
three material tags is absent from its lookup table, and otherwise returns
(wallArea·wallCapacity + floorArea·floorCapacity + roofArea·roofCapacity,
each capacity in J/(m²·K) via the ·1000 conversion, plus
totalVolume·1.2·1005) divided by 3600000 (kWh/K). -/
theorem calculate_thermal_mass_spec (b : Building) :
    ((thermal_mass_values_wall b.wall_material = none ∨
        thermal_mass_values_floor b.floor_material = none ∨
        thermal_mass_values_roof b.roof_material = none) →
      calculate_thermal_mass b = .error .keyError) ∧
    (∀ cw cf cr : ℝ, thermal_mass_values_wall b.wall_material = some cw →
      thermal_mass_values_floor b.floor_material = some cf →
      thermal_mass_values_roof b.roof_material = some cr →
      calculate_thermal_mass b =
        .ok ((b.wall_area * (cw * 1000) + b.floor_area * (cf * 1000) +
            b.roof_area * (cr * 1000) + b.total_volume * 1.2 * 1005) /
          3600000)) := by
  constructor
  · intro h
    unfold calculate_thermal_mass
    cases hw : thermal_mass_values_wall b.wall_material with
    | none => rfl
    | some cw =>
      cases hf : thermal_mass_values_floor b.floor_material with
      | none => rfl
      | some cf =>
        cases hr : thermal_mass_values_roof b.roof_material with
        | none => rfl
        | some cr =>
          rcases h with h | h | h <;> simp_all
  · intro cw cf cr hw hf hr
    unfold calculate_thermal_mass
    rw [hw, hf, hr]
    dsimp only
    congr 1
    ring

/-- Witness for C6: the error half at the `"unobtainium"` wall material, and
the success half at the demo building (capacities 110, 70, 100 kJ/m²K). -/
theorem calculate_thermal_mass_spec_witness :
    (thermal_mass_values_wall demoBadBuilding.wall_material = none ∧
      calculate_thermal_mass demoBadBuilding = .error .keyError) ∧
    (thermal_mass_values_wall demoBuilding.wall_material = some 110 ∧
      thermal_mass_values_floor demoBuilding.floor_material = some 70 ∧
      thermal_mass_values_roof demoBuilding.roof_material = some 100 ∧
      calculate_thermal_mass demoBuilding =
        .ok ((demoBuilding.wall_area * (110 * 1000) +
            demoBuilding.floor_area * (70 * 1000) +
            demoBuilding.roof_area * (100 * 1000) +
            demoBuilding.total_volume * 1.2 * 1005) / 3600000)) :=
  ⟨⟨rfl, (calculate_thermal_mass_spec demoBadBuilding).1 (Or.inl rfl)⟩,
   ⟨rfl, rfl, rfl,
    (calculate_thermal_mass_spec demoBuilding).2 110 70 100 rfl rfl rfl⟩⟩

lemma building_init_invalid_roof
    (l w wh gr : ℝ) (nw nd : ℕ) (rt : String) (p : ℝ)
    (wu fu ru wiu du vr al : ℝ) (wm fm rm : String)
    (h : ¬ validRoof rt) :
    Building.init l w wh gr nw nd rt p wu fu ru wiu du vr al wm fm rm =
      .error .valueError := by
  unfold validRoof at h
  push_neg at h
  obtain ⟨h1, h2, h3, h4⟩ := h
  unfold Building.init
  rw [if_neg h1, if_neg h2, if_neg h4, if_neg h3]

/-- Counterexample for C4: with a valid roof type and pitch 100° (≥ 90°),
`BuildingHeatLoss.__init__` succeeds — the pitch is never validated, so
construction does not fail for degenerate pitches. -/
theorem building_init_accepts_degenerate_pitch :
    (90 : ℝ) ≤ 100 ∧
    ∃ b, Building.init 3 2 2 0.2 1 1 "gable" 100 0.18 0.10 0.13 0.8 0.8
        0.7 0.1 "timber_frame" "timber" "timber_joist" = .ok b :=
  ⟨by norm_num, ⟨_, rfl⟩⟩

/-- C4 amended: construction fails (with the `ValueError` the source raises,
the spec's ConfigurationError) exactly for an invalid roof type; the roof
pitch is not validated — for every pitch, including pitches ≥ 90°,
construction succeeds whenever the roof type is one of the four variants. -/
theorem building_init_failure_modes
    (l w wh gr : ℝ) (nw nd : ℕ) (rt : String) (p : ℝ)
    (wu fu ru wiu du vr al : ℝ) (wm fm rm : String) :
    (¬ validRoof rt →
      Building.init l w wh gr nw nd rt p wu fu ru wiu du vr al wm fm rm =
        .error .valueError) ∧
    (validRoof rt →
      ∃ b, Building.init l w wh gr nw nd rt p wu fu ru wiu du vr al wm fm
          rm = .ok b) := by
  constructor
  · exact building_init_invalid_roof l w wh gr nw nd rt p wu fu ru wiu du
      vr al wm fm rm
  · intro h
    rcases h with h | h | h | h <;> subst h <;> exact ⟨_, rfl⟩

/-- Witness for C4's amended claim: `"dome"` is rejected with `ValueError`;
`"flat"` with pitch 100° is accepted. -/
theorem building_init_failure_modes_witness :
    (¬ validRoof "dome" ∧
      Building.init 3 2 2 0.2 1 1 "dome" 0 0.18 0.10 0.13 0.8 0.8 0.7 0.1
        "timber_frame" "timber" "timber_joist" = .error .valueError) ∧
    (validRoof "flat" ∧
      ∃ b, Building.init 3 2 2 0.2 1 1 "flat" 100 0.18 0.10 0.13 0.8 0.8
          0.7 0.1 "timber_frame" "timber" "timber_joist" = .ok b) :=
  ⟨⟨by decide,
    (building_init_failure_modes 3 2 2 0.2 1 1 "dome" 0 0.18 0.10 0.13 0.8
      0.8 0.7 0.1 "timber_frame" "timber" "timber_joist").1 (by decide)⟩,
   ⟨by decide,
    (building_init_failure_modes 3 2 2 0.2 1 1 "flat" 100 0.18 0.10 0.13
      0.8 0.8 0.7 0.1 "timber_frame" "timber" "timber_joist").2
      (by decide)⟩⟩

/-- C7: for every successfully constructed building the roof area is
length·width (flat), 2·length·(width/cos pitch) (gable),
length·(width/cos pitch) (shed) or (width/cos pitch)·(length/cos pitch)
(hip), with the pitch converted from degrees to radians before `cos`; and
for identical length, width and pitch > 0 the gable roof area is exactly
twice the shed roof area. -/
theorem building_init_roof_area
    (l w wh gr : ℝ) (nw nd : ℕ) (rt : String) (p : ℝ)
    (wu fu ru wiu du vr al : ℝ) (wm fm rm : String) :
    (∀ b, Building.init l w wh gr nw nd rt p wu fu ru wiu du vr al wm fm
        rm = .ok b →
      b.roof_area =
        if rt = "flat" then l * w
        else if rt = "gable" then 2 * l * (w / Real.cos (radians p))
        else if rt = "shed" then l * (w / Real.cos (radians p))
        else (w / Real.cos (radians p)) * (l / Real.cos (radians p))) ∧
    (0 < p →
      ∃ bg bs,
        Building.init l w wh gr nw nd "gable" p wu fu ru wiu du vr al wm fm
          rm = .ok bg ∧
        Building.init l w wh gr nw nd "shed" p wu fu ru wiu du vr al wm fm
          rm = .ok bs ∧
        bg.roof_area = 2 * bs.roof_area) := by
  constructor
  · intro b hb
    by_cases hv : validRoof rt
    · rcases hv with h | h | h | h <;> subst h <;>
        · simp only [Building.init] at hb
          simp at hb
          subst hb
          simp
    · rw [building_init_invalid_roof l w wh gr nw nd rt p wu fu ru wiu du
        vr al wm fm rm hv] at hb
      exact absurd hb (by simp)
  · intro hp
    refine ⟨_, _, rfl, rfl, ?_⟩
    dsimp only
    ring

/-- Witness for C7 at length 3, width 2, pitch 35° (gable vs shed) and a
flat roof (area = length·width). -/
theorem building_init_roof_area_witness :
    (0 : ℝ) < 35 ∧
    (∃ bg bs,
      Building.init 3 2 2 0.2 1 1 "gable" 35 0.18 0.10 0.13 0.8 0.8 0.7
        0.1 "timber_frame" "timber" "timber_joist" = .ok bg ∧
      Building.init 3 2 2 0.2 1 1 "shed" 35 0.18 0.10 0.13 0.8 0.8 0.7
        0.1 "timber_frame" "timber" "timber_joist" = .ok bs ∧
      bg.roof_area = 2 * bs.roof_area) ∧
    (∃ b, Building.init 3 2 2 0.2 1 1 "flat" 0 0.18 0.10 0.13 0.8 0.8 0.7
        0.1 "timber_frame" "timber" "timber_joist" = .ok b ∧
      b.roof_area = 3 * 2) :=
  ⟨by norm_num,
   (building_init_roof_area 3 2 2 0.2 1 1 "gable" 35 0.18 0.10 0.13 0.8
     0.8 0.7 0.1 "timber_frame" "timber" "timber_joist").2 (by norm_num),
   ⟨_, rfl, by
     have h := (building_init_roof_area 3 2 2 0.2 1 1 "flat" 0 0.18 0.10
       0.13 0.8 0.8 0.7 0.1 "timber_frame" "timber" "timber_joist").1 _ rfl
     simpa using h⟩⟩

/-- C8: for a building with at least one window and a valid roof type, the
total heat loss is linear in ΔT — it is 0 at ΔT = 0 (with the transmission,
ventilation/infiltration and thermal-bridge components each exactly 0
there), and doubling ΔT exactly doubles the returned total. -/
theorem total_heat_loss_linear (b : Building) (hw : 0 < b.num_windows)
    (hroof : validRoof b.roof_type) :
    (∃ b', calculate_total_heat_loss b 0 = .ok (b', 0)) ∧
    (calculate_heat_transmission b 0).Q_transmission = 0 ∧
    (calculate_ventilation_heat_loss b 0).Q_ventilation_heat_loss = 0 ∧
    (∃ b' r, calculate_thermal_bridge_loss b 0 = .ok (b', r) ∧
      r.total_W = 0) ∧
    (∀ x : ℝ, ∃ b₁ b₂ v,
      calculate_total_heat_loss b x = .ok (b₁, v) ∧
      calculate_total_heat_loss b (2 * x) = .ok (b₂, 2 * v)) := by
  have hw' : b.num_windows ≠ 0 := Nat.pos_iff_ne_zero.mp hw
  refine ⟨⟨bridgeUpd b, ?_⟩, ?_, ?_, ?_, ?_⟩
  · rw [calculate_total_heat_loss_ok b 0 hw' hroof, mul_zero]
  · unfold calculate_heat_transmission
    dsimp only
    ring
  · unfold calculate_ventilation_heat_loss
    dsimp only
    ring
  · obtain ⟨r, hr, hW, _⟩ := calculate_thermal_bridge_loss_ok b 0 hw' hroof
    exact ⟨bridgeUpd b, r, hr, by rw [hW, mul_zero]⟩
  · intro x
    refine ⟨bridgeUpd b, bridgeUpd b, lossRate b * x,
      calculate_total_heat_loss_ok b x hw' hroof, ?_⟩
    rw [calculate_total_heat_loss_ok b (2 * x) hw' hroof]
    have : lossRate b * (2 * x) = 2 * (lossRate b * x) := by ring
    rw [this]

/-- Witness for C8 at the demo building. -/
theorem total_heat_loss_linear_witness :
    0 < demoBuilding.num_windows ∧ validRoof demoBuilding.roof_type ∧
    ((∃ b', calculate_total_heat_loss demoBuilding 0 = .ok (b', 0)) ∧
     (calculate_heat_transmission demoBuilding 0).Q_transmission = 0 ∧
     (calculate_ventilation_heat_loss demoBuilding
         0).Q_ventilation_heat_loss = 0 ∧
     (∃ b' r, calculate_thermal_bridge_loss demoBuilding 0 =
         .ok (b', r) ∧ r.total_W = 0) ∧
     (∀ x : ℝ, ∃ b₁ b₂ v,
       calculate_total_heat_loss demoBuilding x = .ok (b₁, v) ∧
       calculate_total_heat_loss demoBuilding (2 * x) = .ok (b₂, 2 * v))) :=
  ⟨by decide, by decide,
   total_heat_loss_linear demoBuilding (by decide) (by decide)⟩

lemma sameExceptBridgeCache_bridgeUpd (b : Building) :
    sameExceptBridgeCache b (bridgeUpd b) :=
  ⟨rfl, rfl, rfl, rfl, rfl, rfl, rfl, rfl, rfl, rfl, rfl, rfl, rfl, rfl,
   rfl, rfl, rfl, rfl, rfl, rfl, rfl, rfl, rfl, rfl, rfl, rfl, rfl, rfl⟩

/-- Counterexample for C9: on a fresh building the thermal-bridge cache
lists are empty, and one call to `calculate_thermal_bridge_loss` overwrites
`thermal_bridge_lengths` (via `estimate_thermal_bridges`) — the building
object does not keep all of its fields unchanged. -/
theorem thermal_bridge_loss_mutates_cache :
    ∃ b' r, calculate_thermal_bridge_loss demoBuilding 1 = .ok (b', r) ∧
      b'.thermal_bridge_lengths ≠ demoBuilding.thermal_bridge_lengths := by
  obtain ⟨r, hr, _, _⟩ :=
    calculate_thermal_bridge_loss_ok demoBuilding 1 (by decide) (by decide)
  refine ⟨bridgeUpd demoBuilding, r, hr, ?_⟩
  simp [bridgeUpd, demoBuilding]

/-- C9 amended: the heat-loss results are pure functions of geometry and ΔT
(`calculate_heat_transmission` and `calculate_ventilation_heat_loss` return
plain records by construction), and the only building state
`calculate_thermal_bridge_loss` / `calculate_total_heat_loss` write is the
two thermal-bridge cache lists — every other field is unchanged; within a
simulation step, besides that cache the only mutated state is the
controller's `(integral, previous_error)`. -/
theorem heat_loss_mutation_frame (b : Building) (delta_T : ℝ)
    (hw : b.num_windows ≠ 0) (hroof : validRoof b.roof_type)
    (hs : HeatingSystem) (sp ti tout d : ℝ) (hg : goodB hs.building) :
    (∃ b' r, calculate_thermal_bridge_loss b delta_T = .ok (b', r) ∧
      sameExceptBridgeCache b b') ∧
    (∃ b' v, calculate_total_heat_loss b delta_T = .ok (b', v) ∧
      sameExceptBridgeCache b b') ∧
    (∃ E Tn Qh Ql hs',
      heat_pump hs sp ti tout d = .ok (E, Tn, Qh, Ql, hs') ∧
      sameExceptBridgeCache hs.building hs'.building ∧
      hs'.COP = hs.COP ∧ hs'.min_Q_heating = hs.min_Q_heating ∧
      hs'.max_Q_heating = hs.max_Q_heating ∧ hs'.dt = hs.dt ∧
      hs'.Kp = hs.Kp ∧ hs'.Ki = hs.Ki ∧ hs'.Kd = hs.Kd) := by
  refine ⟨?_, ?_, ?_⟩
  · obtain ⟨r, hr, _, _⟩ :=
      calculate_thermal_bridge_loss_ok b delta_T hw hroof
    exact ⟨_, r, hr, sameExceptBridgeCache_bridgeUpd b⟩
  · exact ⟨_, _, calculate_total_heat_loss_ok b delta_T hw hroof,
      sameExceptBridgeCache_bridgeUpd b⟩
  · rw [heat_pump_ok hs sp ti tout d hg]
    exact ⟨_, _, _, _, _, rfl,
      sameExceptBridgeCache_bridgeUpd hs.building,
      rfl, rfl, rfl, rfl, rfl, rfl, rfl⟩

/-- Witness for C9's amended claim at the demo building and system. -/
theorem heat_loss_mutation_frame_witness :
    demoBuilding.num_windows ≠ 0 ∧ validRoof demoBuilding.roof_type ∧
    goodB demoHS.building ∧
    ((∃ b' r, calculate_thermal_bridge_loss demoBuilding 1 = .ok (b', r) ∧
        sameExceptBridgeCache demoBuilding b') ∧
     (∃ b' v, calculate_total_heat_loss demoBuilding 1 = .ok (b', v) ∧
        sameExceptBridgeCache demoBuilding b') ∧
     (∃ E Tn Qh Ql hs',
        heat_pump demoHS 20 18 5 1 = .ok (E, Tn, Qh, Ql, hs') ∧
        sameExceptBridgeCache demoHS.building hs'.building ∧
        hs'.COP = demoHS.COP ∧
        hs'.min_Q_heating = demoHS.min_Q_heating ∧
        hs'.max_Q_heating = demoHS.max_Q_heating ∧ hs'.dt = demoHS.dt ∧
        hs'.Kp = demoHS.Kp ∧ hs'.Ki = demoHS.Ki ∧ hs'.Kd = demoHS.Kd)) :=
  ⟨by decide, by decide, by decide,
   heat_loss_mutation_frame demoBuilding 1 (by decide) (by decide) demoHS
     20 18 5 1 (by decide)⟩

/-- C10: with zero windows (and positive wall area and glazing ratio, so
the window area is positive), `estimate_thermal_bridges` divides the
window area by `num_windows = 0`; `calculate_thermal_bridge_loss`,
`calculate_total_heat_loss` and `simulate_heating` all fail with the
`ZeroDivisionError` instead of returning a result. -/
theorem zero_windows_division_error (b : Building)
    (h0 : b.num_windows = 0) (hwa : 0 < b.wall_area)
    (hgr : 0 < b.glazing_ratio) (delta_T : ℝ) :
    calculate_thermal_bridge_loss b delta_T = .error .zeroDivision ∧
    calculate_total_heat_loss b delta_T = .error .zeroDivision ∧
    (∀ (hs : HeatingSystem) (outs sets : List ℝ) (T0 : ℝ),
      hs.building = b → outs.length = 24 → sets.length = 24 →
      simulate_heating hs outs sets T0 = .error .zeroDivision) := by
  have hest : estimate_thermal_bridges b = .error .zeroDivision := by
    unfold estimate_thermal_bridges
    rw [if_pos h0]
  have hbr : ∀ dT : ℝ,
      calculate_thermal_bridge_loss b dT = .error .zeroDivision := by
    intro dT
    unfold calculate_thermal_bridge_loss
    rw [hest]
  have htot : ∀ dT : ℝ,
      calculate_total_heat_loss b dT = .error .zeroDivision := by
    intro dT
    unfold calculate_total_heat_loss
    rw [hbr dT]
  have hhp : ∀ (hs : HeatingSystem) (sp ti tout d : ℝ), hs.building = b →
      heat_pump hs sp ti tout d = .error .zeroDivision := by
    intro hs sp ti tout d hb
    unfold heat_pump
    dsimp only
    rw [hb, htot (ti - tout)]
  refine ⟨hbr delta_T, htot delta_T, ?_⟩
  intro hs outs sets T0 hb ho hsn
  cases outs with
  | nil => simp at ho
  | cons o outs' =>
    cases sets with
    | nil => simp at hsn
    | cons s sets' =>
      have haux : simulate_aux hs (o :: outs') (s :: sets') T0 =
          .error .zeroDivision := by
        unfold simulate_aux
        rw [hhp hs s T0 o hs.dt hb]
      unfold simulate_heating
      rw [if_pos ho, if_pos hsn, haux]

/-- Witness for C10: the demo building with zero windows makes the bridge
computation and a full 24-hour simulation fail with the division error. -/
theorem zero_windows_division_error_witness :
    demoZeroWindowBuilding.num_windows = 0 ∧
    0 < demoZeroWindowBuilding.wall_area ∧
    0 < demoZeroWindowBuilding.glazing_ratio ∧
    demoHS0.building = demoZeroWindowBuilding ∧
    (List.replicate 24 (5 : ℝ)).length = 24 ∧
    (List.replicate 24 (20 : ℝ)).length = 24 ∧
    calculate_thermal_bridge_loss demoZeroWindowBuilding 1 =
      .error .zeroDivision ∧
    simulate_heating demoHS0 (List.replicate 24 (5 : ℝ))
      (List.replicate 24 (20 : ℝ)) 18 = .error .zeroDivision :=
  ⟨by decide,
   by norm_num [demoZeroWindowBuilding, demoBuilding],
   by norm_num [demoZeroWindowBuilding, demoBuilding],
   rfl, by simp, by simp,
   (zero_windows_division_error demoZeroWindowBuilding (by decide)
     (by norm_num [demoZeroWindowBuilding, demoBuilding])
     (by norm_num [demoZeroWindowBuilding, demoBuilding]) 1).1,
   (zero_windows_division_error demoZeroWindowBuilding (by decide)
     (by norm_num [demoZeroWindowBuilding, demoBuilding])
     (by norm_num [demoZeroWindowBuilding, demoBuilding]) 1).2.2 demoHS0
     (List.replicate 24 (5 : ℝ)) (List.replicate 24 (20 : ℝ)) 18 rfl
     (by simp) (by simp)⟩

/-- C1: for every heating system whose building satisfies the success
precondition (a window, a valid roof type, known materials) and whose
clamp interval is nonempty, `simulate_heating` on two 24-element series
returns 25 indoor temperatures starting at the initial temperature plus
three 24-element per-hour series, where hour h's loss is
`calculate_total_heat_loss` at insideTemps[h] − outsideTemps[h], hour h's
heating power is the clamped PID output (`heat_pump_control` via
`pidApply`) for (setpoints[h], insideTemps[h]) at the controller state
evolved from the initial state, that power lies in
[min_Q_heating, max_Q_heating], the electrical energy is the power divided
by COP, and insideTemps[h+1] = insideTemps[h] +
(heatingPower[h] − heatLoss[h])·dt / effectiveThermalMass. -/
theorem simulate_heating_contract
    (hs : HeatingSystem) (outs sets : List ℝ) (T0 : ℝ)
    (hout : outs.length = 24) (hset : sets.length = 24)
    (hg : goodB hs.building)
    (hclamp : hs.min_Q_heating ≤ hs.max_Q_heating) :
    ∃ temps energies heats losses hs',
      simulate_heating hs outs sets T0 =
        .ok (temps, energies, heats, losses, hs') ∧
      temps.length = 25 ∧ energies.length = 24 ∧ heats.length = 24 ∧
      losses.length = 24 ∧
      temps.getD 0 0 = T0 ∧
      calculate_thermal_mass hs.building = .ok (Mval hs.building) ∧
      ∃ ctrl : ℕ → ℝ × ℝ,
        ctrl 0 = (hs.integral, hs.previous_error) ∧
        ∀ h, h < 24 →
          (∃ b', calculate_total_heat_loss hs.building
              (temps.getD h 0 - outs.getD h 0) =
            .ok (b', losses.getD h 0)) ∧
          heats.getD h 0 =
            (pidApply hs (ctrl h) (sets.getD h 0) (temps.getD h 0)).1 ∧
          ctrl (h + 1) =
            (pidApply hs (ctrl h) (sets.getD h 0) (temps.getD h 0)).2 ∧
          hs.min_Q_heating ≤ heats.getD h 0 ∧
          heats.getD h 0 ≤ hs.max_Q_heating ∧
          energies.getD h 0 = heats.getD h 0 / hs.COP ∧
          temps.getD (h + 1) 0 =
            temps.getD h 0 + (heats.getD h 0 - losses.getD h 0) * hs.dt /
              Mval hs.building := by
  obtain ⟨temps', Es, Qhs, Qls, hs', hEq, hlt, hle, hlh, hll, ctrl, hc0,
    hprops⟩ :=
    simulate_aux_spec outs sets hs T0 (by rw [hout, hset]) hg
  refine ⟨T0 :: temps', Es, Qhs, Qls, hs', ?_, ?_, ?_, ?_, ?_, ?_, ?_,
    ctrl, hc0, ?_⟩
  · unfold simulate_heating
    rw [if_pos hout, if_pos hset, hEq]
  · simp [hlt, hout]
  · rw [hle, hout]
  · rw [hlh, hout]
  · rw [hll, hout]
  · simp
  · exact calculate_thermal_mass_ok hs.building hg.2.2.1 hg.2.2.2.1
      hg.2.2.2.2
  · intro h hh
    have hh' : h < outs.length := by rw [hout]; exact hh
    obtain ⟨hl, hq, hc, he, ht⟩ := hprops h hh'
    refine ⟨?_, hq, hc, ?_, ?_, he, ht⟩
    · rw [hl]
      exact ⟨bridgeUpd hs.building,
        calculate_total_heat_loss_ok hs.building _ hg.1 hg.2.1⟩
    · rw [hq]
      exact (pidApply_bounds hs (ctrl h) _ _ hclamp).1
    · rw [hq]
      exact (pidApply_bounds hs (ctrl h) _ _ hclamp).2

/-- Witness for C1: a concrete 24-hour run over the demo system (constant
outdoor temperature 5 °C, constant setpoint 20 °C, initial indoor
temperature 18 °C). -/
theorem simulate_heating_contract_witness :
    (List.replicate 24 (5 : ℝ)).length = 24 ∧
    (List.replicate 24 (20 : ℝ)).length = 24 ∧
    goodB demoHS.building ∧
    demoHS.min_Q_heating ≤ demoHS.max_Q_heating ∧
    (∃ temps energies heats losses hs',
      simulate_heating demoHS (List.replicate 24 (5 : ℝ))
          (List.replicate 24 (20 : ℝ)) 18 =
        .ok (temps, energies, heats, losses, hs') ∧
      temps.length = 25 ∧ energies.length = 24 ∧ heats.length = 24 ∧
      losses.length = 24 ∧
      temps.getD 0 0 = 18 ∧
      calculate_thermal_mass demoHS.building =
        .ok (Mval demoHS.building) ∧
      ∃ ctrl : ℕ → ℝ × ℝ,
        ctrl 0 = (demoHS.integral, demoHS.previous_error) ∧
        ∀ h, h < 24 →
          (∃ b', calculate_total_heat_loss demoHS.building
              (temps.getD h 0 - (List.replicate 24 (5 : ℝ)).getD h 0) =
            .ok (b', losses.getD h 0)) ∧
          heats.getD h 0 =
            (pidApply demoHS (ctrl h)
              ((List.replicate 24 (20 : ℝ)).getD h 0) (temps.getD h 0)).1 ∧
          ctrl (h + 1) =
            (pidApply demoHS (ctrl h)
              ((List.replicate 24 (20 : ℝ)).getD h 0) (temps.getD h 0)).2 ∧
          demoHS.min_Q_heating ≤ heats.getD h 0 ∧
          heats.getD h 0 ≤ demoHS.max_Q_heating ∧
          energies.getD h 0 = heats.getD h 0 / demoHS.COP ∧
          temps.getD (h + 1) 0 =
            temps.getD h 0 +
              (heats.getD h 0 - losses.getD h 0) * demoHS.dt /
                Mval demoHS.building) :=
  ⟨by simp, by simp, by decide,
   by norm_num [demoHS, HeatingSystem.init],
   simulate_heating_contract demoHS (List.replicate 24 (5 : ℝ))
     (List.replicate 24 (20 : ℝ)) 18 (by simp) (by simp) (by decide)
     (by norm_num [demoHS, HeatingSystem.init])⟩
